import Mathlib

/-!
Verification of the capture-submit-patch pipeline implemented in
static/js/base.js of the Mushguard repository.

The interesting code lives in the DOMContentLoaded callback of base.js:
the mode-toggle handlers (lines 36-64), the start-camera click handler
(lines 100-117), the capture-photo click handler (lines 122-138), the
camera-form submit handler (lines 143-266, which parses the response,
patches the .analysis-result region, runs embedded scripts through
loadScript / executeScriptsFrom, and resets the camera), and the page
teardown handler (lines 270-274).

The embedding is a shallow one.  Every asynchronous callback of the
source (the getUserMedia promise, the canvas.toBlob callback, the blob
fetch, the POST response) becomes an explicit event consumed by a step
function over an explicit application state, so interleavings of user
actions with promise resolutions are ordinary event lists.  The DOM
region the patch code touches is modelled as a flat list of sibling
nodes; the script elements of a fragment are modelled as a list of
script declarations, and the sequential loader of executeScriptsFrom
(a for-loop awaiting each external load) becomes a recursive trace
generator whose load outcomes are driven by an oracle list.
-/

namespace Mushguard

/-- A script element contained in a patched fragment.  base.js lines
222-234 distinguish a script carrying a src attribute (external
resource) from one carrying inline text content. -/
inductive Script
  | srcScript (src : String)
  | inlineScript (code : String)
deriving DecidableEq, Repr

/-- Observable events of script activation: the insertion of a script
element with a src attribute (which starts its fetch), the completion
of such a load (the onload resolve or the onerror reject of loadScript,
base.js lines 204-213), and the synchronous execution of an inline
script re-created and appended to the body (base.js lines 231-234). -/
inductive LEvent
  | fetchStart (src : String)
  | loadDone (src : String)
  | loadFailed (src : String)
  | inlineRun (code : String)
deriving DecidableEq, Repr

/-- base.js lines 204-213: loadScript(src) unconditionally creates a
fresh script element with the given src and appends it to the body, so
every call starts a fetch; the returned promise settles with the load
outcome.  There is no lookup in any registry before the append. -/
def loadScriptEvents (src : String) (ok : Bool) : List LEvent :=
  [LEvent.fetchStart src, if ok then LEvent.loadDone src else LEvent.loadFailed src]

/-- base.js lines 216-236: executeScriptsFrom iterates the script
elements of the injected container in document order.  For a script
with a src attribute it awaits loadScript(src) inside a try/catch, so
the loop is suspended until that load settles (resolve or reject) and
a failure merely logs and continues; for an inline script it appends a
fresh executable node, which runs synchronously.  The oks list is the
oracle assigning each successive external load its outcome. -/
def executeScriptsFrom : List Script → List Bool → List LEvent
  | [], _ => []
  | Script.srcScript src :: rest, oks =>
      loadScriptEvents src (oks.headD true) ++ executeScriptsFrom rest oks.tail
  | Script.inlineScript code :: rest, oks =>
      LEvent.inlineRun code :: executeScriptsFrom rest oks

/-- Number of external script declarations in a fragment. -/
def extCount : List Script → Nat
  | [] => 0
  | Script.srcScript _ :: rest => extCount rest + 1
  | Script.inlineScript _ :: rest => extCount rest

/-- Number of script declarations referencing a given resource URL. -/
def srcRefCount (src : String) : List Script → Nat
  | [] => 0
  | Script.srcScript s :: rest => (if s = src then 1 else 0) + srcRefCount src rest
  | Script.inlineScript _ :: rest => srcRefCount src rest

/-- Number of fetches of a given resource URL in an activation trace. -/
def fetchCount (src : String) : List LEvent → Nat
  | [] => 0
  | LEvent.fetchStart s :: rest => (if s = src then 1 else 0) + fetchCount src rest
  | LEvent.loadDone _ :: rest => fetchCount src rest
  | LEvent.loadFailed _ :: rest => fetchCount src rest
  | LEvent.inlineRun _ :: rest => fetchCount src rest

/-- A node of the document region the patch code manipulates: the
designated result container (class analysis-result, with its visible
content), the designated anchor (class input-container), or any other
sibling element. -/
inductive Node
  | analysisResult (content : String)
  | inputContainer
  | otherNode (tag : String)
deriving DecidableEq, Repr

/-- Selector test for .analysis-result (base.js lines 179-180). -/
def isAnalysisResult : Node → Bool
  | Node.analysisResult _ => true
  | _ => false

/-- Selector test for .input-container (base.js line 185). -/
def isInputContainer : Node → Bool
  | Node.inputContainer => true
  | _ => false

/-- document.querySelector over a sibling list: first match in
document order, or none. -/
def querySelector (p : Node → Bool) (ns : List Node) : Option Node :=
  ns.find? p

/-- currentResult.replaceWith(newResult): the first node matching the
selector is replaced in place; everything else is untouched. -/
def replaceFirst (p : Node → Bool) (r : Node) : List Node → List Node
  | [] => []
  | n :: rest => if p n then r :: rest else n :: replaceFirst p r rest

/-- inputContainer.insertAdjacentElement(afterend, newResult): the new
node is inserted immediately after the first node matching the
selector; everything else is untouched. -/
def insertAfterFirst (p : Node → Bool) (r : Node) : List Node → List Node
  | [] => []
  | n :: rest => if p n then n :: r :: rest else n :: insertAfterFirst p r rest

/-- base.js lines 176-189: the response markup is parsed into a
detached document; newResult is its first .analysis-result node and
currentResult the live document's first one.  If both exist the live
node is replaced; if only newResult exists it is inserted after the
first .input-container when that anchor exists; otherwise nothing
happens to the live document. -/
def patchAnalysisResult (docNodes fragNodes : List Node) : List Node :=
  match querySelector isAnalysisResult fragNodes with
  | none => docNodes
  | some r =>
    match querySelector isAnalysisResult docNodes with
    | some _ => replaceFirst isAnalysisResult r docNodes
    | none =>
      match querySelector isInputContainer docNodes with
      | none => docNodes
      | some _ => insertAfterFirst isInputContainer r docNodes

/-- The state of the DOMContentLoaded closure of base.js, restricted
to what the camera, submission and patch handlers read and write.
stream is the module-level stream variable (line 33) holding the
handle of the acquired hardware stream, openHandles the hardware
streams acquired and not yet stopped, and nextHandle a source of fresh
handle identifiers.  gumPending counts getUserMedia promises awaited
by suspended start-handler invocations, framePending the outstanding
canvas.toBlob callbacks, blobFetchPending the outstanding fetches of
the stored blob URL, and postsInFlight the POST requests issued whose
responses have not settled; postsIssued and gumCalls count POSTs and
getUserMedia calls ever made.  inputValue is cameraImageInput.value,
previewVisible the display state of the camera preview container,
docNodes the sibling list around the result region, alerts the
blocking notifications shown so far, and the two disabled flags are
the start and capture button states. -/
structure AppState where
  stream : Option Nat
  openHandles : List Nat
  nextHandle : Nat
  gumPending : Nat
  gumCalls : Nat
  startDisabled : Bool
  captureDisabled : Bool
  framePending : Nat
  inputValue : String
  previewVisible : Bool
  blobFetchPending : Nat
  postsInFlight : Nat
  postsIssued : Nat
  docNodes : List Node
  alerts : List String
  uploadModeActive : Bool
deriving Repr

/-- The stop-camera pattern of base.js lines 43-46 and 247-250: if the
stream variable holds a handle, stop its tracks and null the variable;
from the null state this is a no-op. -/
def stopStream (s : AppState) : AppState :=
  match s.stream with
  | none => s
  | some h => { s with stream := none, openHandles := s.openHandles.erase h }

/-- base.js lines 36-54: switchToUploadMode reveals the upload panel,
stops the camera if running, re-enables the start button and disables
the capture button. -/
def switchToUploadMode (s : AppState) : AppState :=
  let t := stopStream { s with uploadModeActive := true }
  { t with startDisabled := false, captureDisabled := true }

/-- base.js lines 56-61: switchToCameraMode only toggles which panel
is displayed; it touches neither the stream nor the buttons and calls
no hardware API. -/
def switchToCameraMode (s : AppState) : AppState :=
  { s with uploadModeActive := false }

/-- base.js lines 100-108: a click on the start button (a disabled
button fires no click event) invokes getUserMedia; the handler then
suspends awaiting the permission promise.  Nothing is disabled before
the await, so a second click during the pending window runs the
handler again. -/
def startCameraClick (s : AppState) : AppState :=
  if s.startDisabled then s
  else { s with gumPending := s.gumPending + 1, gumCalls := s.gumCalls + 1 }

/-- base.js lines 102-112: one pending getUserMedia promise resolves;
a fresh hardware stream is acquired and assigned to the stream
variable (overwriting whatever it held), the video element is wired,
the start button is disabled and the capture button enabled. -/
def startCameraResolved (s : AppState) : AppState :=
  if s.gumPending = 0 then s
  else
    { s with stream := some s.nextHandle,
             openHandles := s.nextHandle :: s.openHandles,
             nextHandle := s.nextHandle + 1,
             gumPending := s.gumPending - 1,
             startDisabled := true,
             captureDisabled := false }

/-- base.js lines 113-116: one pending getUserMedia promise rejects;
the catch logs and shows a blocking alert. -/
def startCameraRejected (s : AppState) : AppState :=
  if s.gumPending = 0 then s
  else { s with gumPending := s.gumPending - 1,
                alerts := s.alerts ++
                  ["Error accessing camera. Please make sure you have granted camera permissions."] }

/-- base.js lines 122-138: a click on the capture button (no click
while disabled) returns at once when the stream variable is null,
before any canvas sizing, drawing or encoding; otherwise it draws the
current video frame and starts the asynchronous toBlob encoding. -/
def capturePhotoClick (s : AppState) : AppState :=
  if s.captureDisabled then s
  else if s.stream = none then s
  else { s with framePending := s.framePending + 1 }

/-- base.js lines 131-137: the toBlob callback fires; the encoded JPEG
is stored as a blob URL in the preview image and in
cameraImageInput.value, and the preview container is shown. -/
def captureBlobReady (s : AppState) : AppState :=
  if s.framePending = 0 then s
  else { s with framePending := s.framePending - 1,
                previewVisible := true,
                inputValue := "blob:camera-photo" }

/-- base.js lines 143-151: the camera-form submit handler.  When
cameraImageInput.value is empty it alerts and returns without touching
the network; otherwise it starts the fetch of the stored blob URL and
suspends.  No flag records that a submission is in progress. -/
def cameraFormSubmit (s : AppState) : AppState :=
  if s.inputValue = "" then
    { s with alerts := s.alerts ++ ["Please capture a photo first"] }
  else { s with blobFetchPending := s.blobFetchPending + 1 }

/-- base.js lines 151-171: the blob fetch resolves; the handler builds
the multipart FormData (field image, optional csrf token) and issues
the POST to the current page. -/
def imageBlobFetched (s : AppState) : AppState :=
  if s.blobFetchPending = 0 then s
  else { s with blobFetchPending := s.blobFetchPending - 1,
                postsInFlight := s.postsInFlight + 1,
                postsIssued := s.postsIssued + 1 }

/-- base.js lines 172-264: one in-flight POST settles.  When
response.ok, the body is parsed, the .analysis-result region is
patched (lines 176-189), the injected scripts are started (line 240,
not awaited), and then lines 242-255 unconditionally hide the camera
preview, clear cameraImageInput.value, stop the stream if running,
re-enable the start button and disable the capture button.  When the
response is non-2xx (the handler throws, line 258) or the transport
failed, the catch of lines 261-264 logs and shows a blocking alert
and does nothing else. -/
def submitResponse (ok : Bool) (fragNodes : List Node) (s : AppState) : AppState :=
  if s.postsInFlight = 0 then s
  else
    let t := { s with postsInFlight := s.postsInFlight - 1 }
    if ok then
      let t1 := { t with docNodes := patchAnalysisResult t.docNodes fragNodes }
      let t2 := stopStream { t1 with previewVisible := false, inputValue := "" }
      { t2 with startDisabled := false, captureDisabled := true }
    else
      { t with alerts := t.alerts ++ ["Error submitting photo. Please try again."] }

/-- The events driving the embedded handlers: user actions (clicks and
the form submit) and the settlements of the asynchronous operations
the handlers await. -/
inductive Event
  | clickStart
  | gumResolve
  | gumReject
  | clickCapture
  | frameEncoded
  | clickSubmit
  | blobFetched
  | response (ok : Bool) (fragNodes : List Node)
  | clickUploadMode
  | clickCameraMode
deriving Repr

/-- Dispatch of one event to the handler it triggers. -/
def step (s : AppState) : Event → AppState
  | Event.clickStart => startCameraClick s
  | Event.gumResolve => startCameraResolved s
  | Event.gumReject => startCameraRejected s
  | Event.clickCapture => capturePhotoClick s
  | Event.frameEncoded => captureBlobReady s
  | Event.clickSubmit => cameraFormSubmit s
  | Event.blobFetched => imageBlobFetched s
  | Event.response ok frag => submitResponse ok frag s
  | Event.clickUploadMode => switchToUploadMode s
  | Event.clickCameraMode => switchToCameraMode s

/-- Run a list of events from a state. -/
def run (s : AppState) : List Event → AppState
  | [] => s
  | e :: es => run (step s e) es

/-- The state right after DOMContentLoaded on the home page: no
stream, no pending operation, empty input, start enabled, capture
disabled, upload mode shown, and a document containing the anchor but
no result region yet. -/
def initState : AppState :=
  { stream := none, openHandles := [], nextHandle := 0, gumPending := 0,
    gumCalls := 0, startDisabled := false, captureDisabled := true,
    framePending := 0, inputValue := "", previewVisible := false,
    blobFetchPending := 0, postsInFlight := 0, postsIssued := 0,
    docNodes := [Node.inputContainer], alerts := [], uploadModeActive := true }

/-- The handles a stream variable accounts for. -/
def handlesOf : Option Nat → List Nat
  | none => []
  | some h => [h]

/-- Camera-session invariant: at most one acquisition pending, the
stream variable is empty while one is pending and while the start
button is enabled, and exactly the handle held by the stream variable
is open. -/
def CamInv (s : AppState) : Prop :=
  s.gumPending ≤ 1 ∧ (s.gumPending = 1 → s.stream = none) ∧
    (s.startDisabled = false → s.stream = none) ∧
    s.openHandles = handlesOf s.stream

/-- Test for the start-button click event. -/
def isClickStart : Event → Bool
  | Event.clickStart => true
  | _ => false

/-- Along a run, no start-button click happens while a getUserMedia
acquisition is still pending. -/
def noStartWhilePending : AppState → List Event → Bool
  | _, [] => true
  | s, e :: es =>
      (!isClickStart e || s.gumPending == 0) && noStartWhilePending (step s e) es

/-- Event trace of C1: start the camera, capture a frame, then submit
twice before the first submission settles; finally both blob fetches
resolve, each issuing its POST. -/
def doubleSubmitTrace : List Event :=
  [Event.clickStart, Event.gumResolve, Event.clickCapture, Event.frameEncoded,
   Event.clickSubmit, Event.clickSubmit, Event.blobFetched, Event.blobFetched]

/-- Event trace of C4: start the camera, capture a frame, submit, and
let the POST settle with a non-2xx outcome. -/
def failedSubmitTrace : List Event :=
  [Event.clickStart, Event.gumResolve, Event.clickCapture, Event.frameEncoded,
   Event.clickSubmit, Event.blobFetched, Event.response false []]

/-- Event trace of C5: click start twice during the pending
getUserMedia window, then let both permission promises resolve. -/
def doubleStartTrace : List Event :=
  [Event.clickStart, Event.clickStart, Event.gumResolve, Event.gumResolve]

/-- A state with a captured frame stored, used to instantiate the
single-flight analysis. -/
def guardWitnessState : AppState :=
  { initState with inputValue := "blob:camera-photo" }

/-- A state with the camera running, a captured frame stored and one
POST in flight, used to instantiate the success-reset analysis. -/
def resetWitnessState : AppState :=
  { initState with
      stream := some 7,
      openHandles := [7],
      inputValue := "blob:camera-photo",
      previewVisible := true,
      startDisabled := true,
      captureDisabled := false,
      postsInFlight := 1 }

/-- Activation traces are compositional: everything a prefix of the
fragment does, including the completion of each of its external loads,
happens before anything the remainder does, because each iteration of
the executeScriptsFrom loop awaits its external load. -/
theorem executeScriptsFrom_append (xs ys : List Script) (oks : List Bool) :
    executeScriptsFrom (xs ++ ys) oks =
      executeScriptsFrom xs oks ++ executeScriptsFrom ys (oks.drop (extCount xs)) := by
  induction xs generalizing oks with
  | nil => simp [executeScriptsFrom, extCount]
  | cons hd tl ih =>
    cases hd with
    | srcScript src =>
        have htail : oks.tail.drop (extCount tl) = oks.drop (extCount tl + 1) := by
          rw [← List.drop_one, List.drop_drop, Nat.add_comm]
        rw [show executeScriptsFrom (Script.srcScript src :: tl ++ ys) oks =
              loadScriptEvents src (oks.headD true) ++
                executeScriptsFrom (tl ++ ys) oks.tail from rfl,
            ih, htail]
        simp [executeScriptsFrom, extCount, List.append_assoc]
    | inlineScript code =>
        rw [show executeScriptsFrom (Script.inlineScript code :: tl ++ ys) oks =
              LEvent.inlineRun code :: executeScriptsFrom (tl ++ ys) oks from rfl, ih]
        simp [executeScriptsFrom, extCount]

/-- Every external script of a fragment has a completion event (load
resolved or load rejected) in the activation trace. -/
theorem load_completion_mem (xs : List Script) (oks : List Bool) (src : String)
    (h : Script.srcScript src ∈ xs) :
    LEvent.loadDone src ∈ executeScriptsFrom xs oks ∨
      LEvent.loadFailed src ∈ executeScriptsFrom xs oks := by
  induction xs generalizing oks with
  | nil => cases h
  | cons hd tl ih =>
    cases hd with
    | srcScript s =>
        rcases List.mem_cons.mp h with heq | hmem
        · injection heq with hs
          subst hs
          have hrw : executeScriptsFrom (Script.srcScript src :: tl) oks =
              LEvent.fetchStart src ::
                (if oks.headD true = true then LEvent.loadDone src
                 else LEvent.loadFailed src) ::
                  executeScriptsFrom tl oks.tail := rfl
          cases hcs : oks.headD true
          · right
            rw [hrw, hcs]
            simp
          · left
            rw [hrw, hcs]
            simp
        · rcases ih oks.tail hmem with h1 | h1
          · left
            simp only [executeScriptsFrom, List.mem_append]
            exact Or.inr h1
          · right
            simp only [executeScriptsFrom, List.mem_append]
            exact Or.inr h1
    | inlineScript c =>
        have hmem : Script.srcScript src ∈ tl := by
          rcases List.mem_cons.mp h with heq | hmem
          · cases heq
          · exact hmem
        rcases ih oks hmem with h1 | h1
        · left
          exact List.mem_cons_of_mem _ h1
        · right
          exact List.mem_cons_of_mem _ h1

/-- C2 (amended): there is no load registry in the code.  Every
processed external script declaration appends a fresh script element,
so a resource URL is fetched once per referencing script occurrence
per patch, regardless of whether it was fetched before. -/
theorem fetch_count_equals_reference_count (scripts : List Script) (oks : List Bool)
    (src : String) :
    fetchCount src (executeScriptsFrom scripts oks) = srcRefCount src scripts := by
  induction scripts generalizing oks with
  | nil => rfl
  | cons hd tl ih =>
    cases hd with
    | srcScript s =>
        have hrw : executeScriptsFrom (Script.srcScript s :: tl) oks =
            LEvent.fetchStart s ::
              (if oks.headD true = true then LEvent.loadDone s
               else LEvent.loadFailed s) ::
                executeScriptsFrom tl oks.tail := rfl
        cases hcs : oks.headD true
        · rw [hrw, hcs]
          simp [fetchCount, srcRefCount, ih]
        · rw [hrw, hcs]
          simp [fetchCount, srcRefCount, ih]
    | inlineScript c =>
        have hrw : executeScriptsFrom (Script.inlineScript c :: tl) oks =
            LEvent.inlineRun c :: executeScriptsFrom tl oks := rfl
        rw [hrw]
        simp [fetchCount, srcRefCount, ih]

/-- C2 counterexample: the fragment of the spec's own scenario, an
external script followed by an inline script that depends on it,
patched twice in a row.  The external resource is fetched twice, once
per patch, not at most once over the page's lifetime. -/
theorem double_patch_fetches_script_twice :
    fetchCount "https://unpkg.com/leaflet@1.9.4/dist/leaflet.js"
        (executeScriptsFrom
            [Script.srcScript "https://unpkg.com/leaflet@1.9.4/dist/leaflet.js",
             Script.inlineScript "initMap()"] [true] ++
          executeScriptsFrom
            [Script.srcScript "https://unpkg.com/leaflet@1.9.4/dist/leaflet.js",
             Script.inlineScript "initMap()"] [true]) = 2 ∧
      ¬ fetchCount "https://unpkg.com/leaflet@1.9.4/dist/leaflet.js"
          (executeScriptsFrom
              [Script.srcScript "https://unpkg.com/leaflet@1.9.4/dist/leaflet.js",
               Script.inlineScript "initMap()"] [true] ++
            executeScriptsFrom
              [Script.srcScript "https://unpkg.com/leaflet@1.9.4/dist/leaflet.js",
               Script.inlineScript "initMap()"] [true]) ≤ 1 := by
  constructor
  · rfl
  · decide

/-- C3: within one patch, scripts are activated in document order.
Splitting a fragment at an inline script, the activation trace is
exactly the trace of the prefix, then the inline execution, then the
trace of the remainder, because each external load is awaited before
the loop proceeds; and the trace of the prefix contains a completion
event for every external script occurring in it, so the inline script
runs only after all preceding external scripts finished. -/
theorem inline_runs_after_preceding_externals (xs ys : List Script) (c : String)
    (oks : List Bool) (src : String) (h : Script.srcScript src ∈ xs) :
    executeScriptsFrom (xs ++ Script.inlineScript c :: ys) oks =
        executeScriptsFrom xs oks ++
          LEvent.inlineRun c :: executeScriptsFrom ys (oks.drop (extCount xs)) ∧
      (LEvent.loadDone src ∈ executeScriptsFrom xs oks ∨
        LEvent.loadFailed src ∈ executeScriptsFrom xs oks) := by
  refine ⟨?_, load_completion_mem xs oks src h⟩
  rw [executeScriptsFrom_append]
  rfl

/-- Witness for C3 at a concrete fragment: the Leaflet library script
followed by the map-initialization inline script, with the load
resolving. -/
theorem inline_runs_after_preceding_externals_witness :
    executeScriptsFrom
        ([Script.srcScript "https://unpkg.com/leaflet@1.9.4/dist/leaflet.js"] ++
          Script.inlineScript "const map = L.map(mapEl)" :: []) [true] =
        executeScriptsFrom
            [Script.srcScript "https://unpkg.com/leaflet@1.9.4/dist/leaflet.js"] [true] ++
          LEvent.inlineRun "const map = L.map(mapEl)" ::
            executeScriptsFrom []
              ([true].drop
                (extCount [Script.srcScript "https://unpkg.com/leaflet@1.9.4/dist/leaflet.js"])) ∧
      (LEvent.loadDone "https://unpkg.com/leaflet@1.9.4/dist/leaflet.js" ∈
          executeScriptsFrom
            [Script.srcScript "https://unpkg.com/leaflet@1.9.4/dist/leaflet.js"] [true] ∨
        LEvent.loadFailed "https://unpkg.com/leaflet@1.9.4/dist/leaflet.js" ∈
          executeScriptsFrom
            [Script.srcScript "https://unpkg.com/leaflet@1.9.4/dist/leaflet.js"] [true]) :=
  inline_runs_after_preceding_externals
    [Script.srcScript "https://unpkg.com/leaflet@1.9.4/dist/leaflet.js"] []
    "const map = L.map(mapEl)" [true] "https://unpkg.com/leaflet@1.9.4/dist/leaflet.js"
    (by decide)

/-- A selector search skips a prefix containing no match. -/
theorem querySelector_append_of_none (p : Node → Bool) (pre rest : List Node)
    (h : ∀ n ∈ pre, p n = false) :
    querySelector p (pre ++ rest) = querySelector p rest := by
  induction pre with
  | nil => rfl
  | cons a l ih =>
      have ha : p a = false := h a (List.mem_cons_self a l)
      simp only [querySelector, List.cons_append, List.find?, ha]
      exact ih fun n hn => h n (List.mem_cons_of_mem a hn)

/-- A selector search finds a match at the head. -/
theorem querySelector_cons_of_pos (p : Node → Bool) (n : Node) (rest : List Node)
    (h : p n = true) : querySelector p (n :: rest) = some n := by
  simp [querySelector, List.find?, h]

/-- Replacement leaves a match-free prefix untouched. -/
theorem replaceFirst_append_of_none (p : Node → Bool) (r : Node) (pre rest : List Node)
    (h : ∀ n ∈ pre, p n = false) :
    replaceFirst p r (pre ++ rest) = pre ++ replaceFirst p r rest := by
  induction pre with
  | nil => rfl
  | cons a l ih =>
      have ha : p a = false := h a (List.mem_cons_self a l)
      have ih2 := ih fun n hn => h n (List.mem_cons_of_mem a hn)
      simp [replaceFirst, ha, ih2]

/-- Insertion leaves a match-free prefix untouched. -/
theorem insertAfterFirst_append_of_none (p : Node → Bool) (r : Node) (pre rest : List Node)
    (h : ∀ n ∈ pre, p n = false) :
    insertAfterFirst p r (pre ++ rest) = pre ++ insertAfterFirst p r rest := by
  induction pre with
  | nil => rfl
  | cons a l ih =>
      have ha : p a = false := h a (List.mem_cons_self a l)
      have ih2 := ih fun n hn => h n (List.mem_cons_of_mem a hn)
      simp [insertAfterFirst, ha, ih2]

/-- C6: patching parses the fragment detached from the live document
and then (a) if the live document already holds a result node, the
first one is replaced in place and every sibling is untouched; (b) if
no result node is live but the fragment has one, it is inserted
immediately after the first anchor node; (c) if the fragment has no
result node, the live document is left unchanged, silently. -/
theorem patch_replaces_inserts_or_preserves :
    (∀ (pre post frag : List Node) (r old : Node),
        (∀ n ∈ pre, isAnalysisResult n = false) → isAnalysisResult old = true →
          querySelector isAnalysisResult frag = some r →
          patchAnalysisResult (pre ++ old :: post) frag = pre ++ r :: post) ∧
      (∀ (pre post frag : List Node) (r : Node),
        (∀ n ∈ pre ++ Node.inputContainer :: post, isAnalysisResult n = false) →
          (∀ n ∈ pre, isInputContainer n = false) →
          querySelector isAnalysisResult frag = some r →
          patchAnalysisResult (pre ++ Node.inputContainer :: post) frag =
            pre ++ Node.inputContainer :: r :: post) ∧
      (∀ (docNodes frag : List Node),
        querySelector isAnalysisResult frag = none →
          patchAnalysisResult docNodes frag = docNodes) := by
  refine ⟨?_, ?_, ?_⟩
  · intro pre post frag r old hpre hold hfrag
    have hcur : querySelector isAnalysisResult (pre ++ old :: post) = some old := by
      rw [querySelector_append_of_none _ _ _ hpre, querySelector_cons_of_pos _ _ _ hold]
    rw [patchAnalysisResult, hfrag, hcur]
    show replaceFirst isAnalysisResult r (pre ++ old :: post) = pre ++ r :: post
    rw [replaceFirst_append_of_none _ _ _ _ hpre]
    simp [replaceFirst, hold]
  · intro pre post frag r hnores hpre hfrag
    have hcur : querySelector isAnalysisResult (pre ++ Node.inputContainer :: post) = none := by
      simp only [querySelector, List.find?_eq_none]
      intro n hn
      simp [hnores n hn]
    have hanchor : querySelector isInputContainer (pre ++ Node.inputContainer :: post) =
        some Node.inputContainer := by
      rw [querySelector_append_of_none _ _ _ hpre,
        querySelector_cons_of_pos _ _ _ rfl]
    rw [patchAnalysisResult, hfrag, hcur, hanchor]
    show insertAfterFirst isInputContainer r (pre ++ Node.inputContainer :: post) =
      pre ++ Node.inputContainer :: r :: post
    rw [insertAfterFirst_append_of_none _ _ _ _ hpre]
    simp [insertAfterFirst, isInputContainer]
  · intro docNodes frag hfrag
    rw [patchAnalysisResult, hfrag]

/-- Witness for C6 at the spec's end-to-end scenario: a fragment whose
result says EDIBLE replaces the existing result and leaves the sibling
heading untouched; in a document without a result the node lands right
after the anchor; a fragment without a result node changes nothing. -/
theorem patch_replaces_inserts_or_preserves_witness :
    patchAnalysisResult
        [Node.otherNode "h1", Node.analysisResult "PENDING"]
        [Node.analysisResult "EDIBLE"] =
      [Node.otherNode "h1", Node.analysisResult "EDIBLE"] ∧
    patchAnalysisResult
        [Node.otherNode "h1", Node.inputContainer, Node.otherNode "footer"]
        [Node.analysisResult "EDIBLE"] =
      [Node.otherNode "h1", Node.inputContainer, Node.analysisResult "EDIBLE",
       Node.otherNode "footer"] ∧
    patchAnalysisResult [Node.inputContainer] [Node.otherNode "div"] =
      [Node.inputContainer] := by
  refine ⟨?_, ?_, ?_⟩
  · exact patch_replaces_inserts_or_preserves.1 [Node.otherNode "h1"] []
      [Node.analysisResult "EDIBLE"] (Node.analysisResult "EDIBLE")
      (Node.analysisResult "PENDING") (by decide) (by decide) (by decide)
  · exact patch_replaces_inserts_or_preserves.2.1 [Node.otherNode "h1"]
      [Node.otherNode "footer"] [Node.analysisResult "EDIBLE"]
      (Node.analysisResult "EDIBLE") (by decide) (by decide) (by decide)
  · exact patch_replaces_inserts_or_preserves.2.2 [Node.inputContainer]
      [Node.otherNode "div"] (by decide)

/-- C1 counterexample: start the camera, capture, then submit twice
before the first submission resolves.  Both submissions issue their
POST, two requests are in flight at once, and no alert of any kind is
shown, so the second call is not rejected. -/
theorem double_submit_second_not_rejected :
    (run initState doubleSubmitTrace).postsInFlight = 2 ∧
      (run initState doubleSubmitTrace).postsIssued = 2 ∧
      (run initState doubleSubmitTrace).alerts = [] :=
  ⟨rfl, rfl, rfl⟩

/-- C1 (amended): the submit handler keeps no in-progress flag, so a
second submit while the first is unresolved is not rejected; each
submit with a stored frame starts its own request chain and both POSTs
end up in flight, with no alert shown. -/
theorem submit_has_no_single_flight_guard (s : AppState) (h : ¬ s.inputValue = "") :
    (run s [Event.clickSubmit, Event.clickSubmit, Event.blobFetched,
        Event.blobFetched]).postsInFlight = s.postsInFlight + 2 ∧
      (run s [Event.clickSubmit, Event.clickSubmit, Event.blobFetched,
          Event.blobFetched]).postsIssued = s.postsIssued + 2 ∧
      (run s [Event.clickSubmit, Event.clickSubmit, Event.blobFetched,
          Event.blobFetched]).alerts = s.alerts := by
  simp [run, step, cameraFormSubmit, imageBlobFetched, h]

/-- Witness for C1 (amended) at a state holding a captured frame. -/
theorem submit_has_no_single_flight_guard_witness :
    (run guardWitnessState [Event.clickSubmit, Event.clickSubmit, Event.blobFetched,
        Event.blobFetched]).postsInFlight = guardWitnessState.postsInFlight + 2 ∧
      (run guardWitnessState [Event.clickSubmit, Event.clickSubmit, Event.blobFetched,
          Event.blobFetched]).postsIssued = guardWitnessState.postsIssued + 2 ∧
      (run guardWitnessState [Event.clickSubmit, Event.clickSubmit, Event.blobFetched,
          Event.blobFetched]).alerts = guardWitnessState.alerts :=
  submit_has_no_single_flight_guard guardWitnessState (by decide)

/-- C4 counterexample: a full capture-submit round whose POST settles
with a non-2xx outcome.  The failure alert is shown and the document
is unchanged, but the stream variable still holds the hardware handle
and the captured frame is still stored: the camera session is not
reset to Idle. -/
theorem failed_submit_leaves_camera_running :
    (run initState failedSubmitTrace).stream = some 0 ∧
      (run initState failedSubmitTrace).alerts =
        ["Error submitting photo. Please try again."] ∧
      (run initState failedSubmitTrace).docNodes = initState.docNodes ∧
      (run initState failedSubmitTrace).inputValue = "blob:camera-photo" :=
  ⟨rfl, rfl, rfl, rfl⟩

/-- C4 (amended): on a non-2xx or transport failure the catch branch
shows the blocking failure alert and decrements the in-flight count,
and does nothing else: the document, the stream, the stored frame and
the controls are all left exactly as they were, so the camera session
is not reset. -/
theorem network_failure_alerts_preserves_state (s : AppState) (frag : List Node)
    (h : 0 < s.postsInFlight) :
    submitResponse false frag s =
      { s with postsInFlight := s.postsInFlight - 1,
               alerts := s.alerts ++ ["Error submitting photo. Please try again."] } := by
  have hne : ¬ s.postsInFlight = 0 := by omega
  simp [submitResponse, hne]

/-- Witness for C4 (amended) at a state with one POST in flight. -/
theorem network_failure_alerts_preserves_state_witness :
    submitResponse false [] { initState with postsInFlight := 1 } =
      { initState with
          postsInFlight := 0,
          alerts := ["Error submitting photo. Please try again."] } :=
  network_failure_alerts_preserves_state { initState with postsInFlight := 1 } []
    (by decide)

/-- C5 counterexample: two start clicks during the pending permission
window (the button is only disabled once the first acquisition
resolves), then both getUserMedia promises resolve.  getUserMedia is
called twice and afterwards two hardware handles are open while the
stream variable references only the second: the first is leaked. -/
theorem double_start_acquires_two_handles :
    (run initState doubleStartTrace).gumCalls = 2 ∧
      (run initState doubleStartTrace).openHandles = [1, 0] ∧
      (run initState doubleStartTrace).stream = some 1 :=
  ⟨rfl, rfl, rfl⟩

/-- One event preserves the camera-session invariant, provided a start
click only happens while no acquisition is pending. -/
theorem CamInv_step (s : AppState) (e : Event) (hinv : CamInv s)
    (hc : isClickStart e = true → s.gumPending = 0) : CamInv (step s e) := by
  obtain ⟨h1, h2, h3, h4⟩ := hinv
  cases e with
  | clickStart =>
      have hp : s.gumPending = 0 := hc rfl
      by_cases hd : s.startDisabled
      · have hid : step s Event.clickStart = s := by simp [step, startCameraClick, hd]
        rw [hid]; exact ⟨h1, h2, h3, h4⟩
      · have hs : s.stream = none := h3 (by simp [hd])
        have hstep : step s Event.clickStart =
            { s with gumPending := s.gumPending + 1, gumCalls := s.gumCalls + 1 } := by
          simp [step, startCameraClick, hd]
        rw [hstep]; simp only [CamInv]
        exact ⟨by omega, fun _ => hs, h3, h4⟩
  | gumResolve =>
      by_cases hp : s.gumPending = 0
      · have hid : step s Event.gumResolve = s := by simp [step, startCameraResolved, hp]
        rw [hid]; exact ⟨h1, h2, h3, h4⟩
      · have h2s : s.stream = none := h2 (by omega)
        have h4s : s.openHandles = [] := by rw [h4, h2s]; rfl
        have hstep : step s Event.gumResolve =
            { s with stream := some s.nextHandle,
                     openHandles := s.nextHandle :: s.openHandles,
                     nextHandle := s.nextHandle + 1,
                     gumPending := s.gumPending - 1,
                     startDisabled := true,
                     captureDisabled := false } := by
          simp [step, startCameraResolved, hp]
        rw [hstep]
        refine ⟨?_, ?_, ?_, ?_⟩
        · show s.gumPending - 1 ≤ 1
          omega
        · intro hh
          exact absurd hh (show ¬ (s.gumPending - 1 = 1) by omega)
        · intro hh
          exact absurd hh (by simp)
        · show s.nextHandle :: s.openHandles = handlesOf (some s.nextHandle)
          simp [h4s, handlesOf]
  | gumReject =>
      by_cases hp : s.gumPending = 0
      · have hid : step s Event.gumReject = s := by simp [step, startCameraRejected, hp]
        rw [hid]; exact ⟨h1, h2, h3, h4⟩
      · have hstep : step s Event.gumReject =
            { s with gumPending := s.gumPending - 1,
                     alerts := s.alerts ++
                       ["Error accessing camera. Please make sure you have granted camera permissions."] } := by
          simp [step, startCameraRejected, hp]
        rw [hstep]; simp only [CamInv]
        exact ⟨by omega, fun hh => absurd hh (by omega), h3, h4⟩
  | clickCapture =>
      by_cases hd : s.captureDisabled
      · have hid : step s Event.clickCapture = s := by simp [step, capturePhotoClick, hd]
        rw [hid]; exact ⟨h1, h2, h3, h4⟩
      · by_cases hs : s.stream = none
        · have hid : step s Event.clickCapture = s := by
            simp [step, capturePhotoClick, hd, hs]
          rw [hid]; exact ⟨h1, h2, h3, h4⟩
        · have hstep : step s Event.clickCapture =
              { s with framePending := s.framePending + 1 } := by
            simp [step, capturePhotoClick, hd, hs]
          rw [hstep]; simp only [CamInv]
          exact ⟨h1, h2, h3, h4⟩
  | frameEncoded =>
      by_cases hp : s.framePending = 0
      · have hid : step s Event.frameEncoded = s := by simp [step, captureBlobReady, hp]
        rw [hid]; exact ⟨h1, h2, h3, h4⟩
      · have hstep : step s Event.frameEncoded =
            { s with framePending := s.framePending - 1,
                     previewVisible := true,
                     inputValue := "blob:camera-photo" } := by
          simp [step, captureBlobReady, hp]
        rw [hstep]; simp only [CamInv]
        exact ⟨h1, h2, h3, h4⟩
  | clickSubmit =>
      by_cases hv : s.inputValue = ""
      · have hstep : step s Event.clickSubmit =
            { s with alerts := s.alerts ++ ["Please capture a photo first"] } := by
          simp [step, cameraFormSubmit, hv]
        rw [hstep]; simp only [CamInv]
        exact ⟨h1, h2, h3, h4⟩
      · have hstep : step s Event.clickSubmit =
            { s with blobFetchPending := s.blobFetchPending + 1 } := by
          simp [step, cameraFormSubmit, hv]
        rw [hstep]; simp only [CamInv]
        exact ⟨h1, h2, h3, h4⟩
  | blobFetched =>
      by_cases hp : s.blobFetchPending = 0
      · have hid : step s Event.blobFetched = s := by simp [step, imageBlobFetched, hp]
        rw [hid]; exact ⟨h1, h2, h3, h4⟩
      · have hstep : step s Event.blobFetched =
            { s with blobFetchPending := s.blobFetchPending - 1,
                     postsInFlight := s.postsInFlight + 1,
                     postsIssued := s.postsIssued + 1 } := by
          simp [step, imageBlobFetched, hp]
        rw [hstep]; simp only [CamInv]
        exact ⟨h1, h2, h3, h4⟩
  | response ok frag =>
      by_cases hp : s.postsInFlight = 0
      · have hid : step s (Event.response ok frag) = s := by
          simp [step, submitResponse, hp]
        rw [hid]; exact ⟨h1, h2, h3, h4⟩
      · cases ok with
        | false =>
            have hstep : step s (Event.response false frag) =
                { s with postsInFlight := s.postsInFlight - 1,
                         alerts := s.alerts ++
                           ["Error submitting photo. Please try again."] } := by
              simp [step, submitResponse, hp]
            rw [hstep]; simp only [CamInv]
            exact ⟨h1, h2, h3, h4⟩
        | true =>
            cases hstream : s.stream with
            | none =>
                have hstep : step s (Event.response true frag) =
                    { s with postsInFlight := s.postsInFlight - 1,
                             docNodes := patchAnalysisResult s.docNodes frag,
                             previewVisible := false, inputValue := "",
                             startDisabled := false, captureDisabled := true } := by
                  simp [step, submitResponse, stopStream, hp, hstream]
                rw [hstep]; simp only [CamInv]
                exact ⟨h1, fun _ => hstream, fun _ => hstream, h4⟩
            | some h0 =>
                have h4s : s.openHandles = [h0] := by rw [h4, hstream]; rfl
                have hstep : step s (Event.response true frag) =
                    { s with postsInFlight := s.postsInFlight - 1,
                             docNodes := patchAnalysisResult s.docNodes frag,
                             previewVisible := false, inputValue := "",
                             stream := none,
                             openHandles := s.openHandles.erase h0,
                             startDisabled := false, captureDisabled := true } := by
                  simp [step, submitResponse, stopStream, hp, hstream]
                rw [hstep]
                refine ⟨h1, fun _ => rfl, fun _ => rfl, ?_⟩
                show s.openHandles.erase h0 = handlesOf none
                rw [h4s, List.erase_cons_head]
                rfl
  | clickUploadMode =>
      cases hstream : s.stream with
      | none =>
          have hstep : step s Event.clickUploadMode =
              { s with uploadModeActive := true, startDisabled := false,
                       captureDisabled := true } := by
            simp [step, switchToUploadMode, stopStream, hstream]
          rw [hstep]; simp only [CamInv]
          exact ⟨h1, fun _ => hstream, fun _ => hstream, h4⟩
      | some h0 =>
          have h4s : s.openHandles = [h0] := by rw [h4, hstream]; rfl
          have hstep : step s Event.clickUploadMode =
              { s with uploadModeActive := true, stream := none,
                       openHandles := s.openHandles.erase h0,
                       startDisabled := false, captureDisabled := true } := by
            simp [step, switchToUploadMode, stopStream, hstream]
          rw [hstep]
          refine ⟨h1, fun _ => rfl, fun _ => rfl, ?_⟩
          show s.openHandles.erase h0 = handlesOf none
          rw [h4s, List.erase_cons_head]
          rfl
  | clickCameraMode =>
      have hstep : step s Event.clickCameraMode = { s with uploadModeActive := false } := by
        simp [step, switchToCameraMode]
      rw [hstep]; simp only [CamInv]
      exact ⟨h1, h2, h3, h4⟩

/-- The camera-session invariant holds along every run in which no
start click happens while an acquisition is pending. -/
theorem CamInv_run (es : List Event) : ∀ s : AppState, CamInv s →
    noStartWhilePending s es = true → CamInv (run s es) := by
  induction es with
  | nil => intro s h _; exact h
  | cons e es ih =>
      intro s h hsafe
      simp only [noStartWhilePending, Bool.and_eq_true] at hsafe
      obtain ⟨hguard, hrest⟩ := hsafe
      have hc : isClickStart e = true → s.gumPending = 0 := by
        intro he
        rw [he] at hguard
        simpa using hguard
      exact ih (step s e) (CamInv_step s e h hc) hrest

/-- C5 (amended): once the camera is Active the start control is
disabled, so further start clicks are no-ops, and along every run in
which no start click happens during the pending acquisition window at
most one hardware handle is open at any time.  Only a start click
inside the pending window (the counterexample) breaks this. -/
theorem single_handle_without_start_during_pending (es : List Event)
    (h : noStartWhilePending initState es = true) :
    (run initState es).openHandles.length ≤ 1 := by
  have hinit : CamInv initState := ⟨by decide, fun _ => rfl, fun _ => rfl, rfl⟩
  obtain ⟨-, -, -, h4⟩ := CamInv_run es initState hinit h
  rw [h4]
  cases (run initState es).stream <;> simp [handlesOf]

/-- Witness for C5 (amended): start, let the acquisition resolve, and
click start again from the Active state; the run is safe and a single
handle is open at the end. -/
theorem single_handle_without_start_during_pending_witness :
    noStartWhilePending initState
        [Event.clickStart, Event.gumResolve, Event.clickStart] = true ∧
      (run initState
          [Event.clickStart, Event.gumResolve, Event.clickStart]).openHandles.length ≤ 1 :=
  ⟨by decide,
    single_handle_without_start_during_pending
      [Event.clickStart, Event.gumResolve, Event.clickStart] (by decide)⟩

/-- C7: a submit with no stored capture frame shows the blocking
notification of the missing capture and changes nothing else: no blob
fetch is started and no POST is constructed or issued. -/
theorem submit_without_capture_no_request (s : AppState) (h : s.inputValue = "") :
    cameraFormSubmit s = { s with alerts := s.alerts ++ ["Please capture a photo first"] } ∧
      (cameraFormSubmit s).blobFetchPending = s.blobFetchPending ∧
      (cameraFormSubmit s).postsInFlight = s.postsInFlight ∧
      (cameraFormSubmit s).postsIssued = s.postsIssued := by
  unfold cameraFormSubmit
  rw [if_pos h]
  exact ⟨rfl, rfl, rfl, rfl⟩

/-- Witness for C7 at the initial state, whose input value is empty. -/
theorem submit_without_capture_no_request_witness :
    cameraFormSubmit initState =
        { initState with alerts := ["Please capture a photo first"] } ∧
      (cameraFormSubmit initState).blobFetchPending = initState.blobFetchPending ∧
      (cameraFormSubmit initState).postsInFlight = initState.postsInFlight ∧
      (cameraFormSubmit initState).postsIssued = initState.postsIssued :=
  submit_without_capture_no_request initState rfl

/-- C8: a capture click while the stream variable is empty (every
state outside Active, including Starting and Error) returns at the
guard: the state is completely unchanged, so no frame is rendered,
encoded or stored. -/
theorem capture_without_stream_no_frame (s : AppState) (h : s.stream = none) :
    capturePhotoClick s = s := by
  simp [capturePhotoClick, h]

/-- Witness for C8 at the initial state, which holds no stream. -/
theorem capture_without_stream_no_frame_witness :
    capturePhotoClick initState = initState :=
  capture_without_stream_no_frame initState rfl

/-- C9: switching to Upload always leaves the stream empty, disables
capture and re-enables start, releasing the held handle if there is
one; from the no-stream state the stop is a pure no-op on the handles
(only the UI toggles change).  Switching to Camera only toggles the
displayed panel: it never calls getUserMedia and leaves stream,
handles and buttons untouched. -/
theorem mode_switch_contract (s : AppState) :
    (switchToUploadMode s).stream = none ∧
      (switchToUploadMode s).captureDisabled = true ∧
      (switchToUploadMode s).startDisabled = false ∧
      (switchToUploadMode s).openHandles =
        (match s.stream with
         | none => s.openHandles
         | some h0 => s.openHandles.erase h0) ∧
      (s.stream = none →
        switchToUploadMode s =
          { s with uploadModeActive := true, startDisabled := false,
                   captureDisabled := true }) ∧
      switchToCameraMode s = { s with uploadModeActive := false } := by
  cases hstream : s.stream with
  | none =>
      have hupl : switchToUploadMode s =
          { s with uploadModeActive := true, startDisabled := false,
                   captureDisabled := true } := by
        simp [switchToUploadMode, stopStream, hstream]
      rw [hupl]
      refine ⟨hstream, rfl, rfl, rfl, ?_, ?_⟩
      · intro _
        rw [hstream]
      · simp [switchToCameraMode, hstream]
  | some h0 =>
      have hupl : switchToUploadMode s =
          { s with uploadModeActive := true, stream := none,
                   openHandles := s.openHandles.erase h0,
                   startDisabled := false, captureDisabled := true } := by
        simp [switchToUploadMode, stopStream, hstream]
      rw [hupl]
      refine ⟨rfl, rfl, rfl, rfl, ?_, ?_⟩
      · intro hcon
        exact Option.noConfusion hcon
      · simp [switchToCameraMode, hstream]

/-- Witness for C9 at the initial state. -/
theorem mode_switch_contract_witness :
    (switchToUploadMode initState).stream = none ∧
      (switchToUploadMode initState).captureDisabled = true ∧
      (switchToUploadMode initState).startDisabled = false ∧
      (switchToUploadMode initState).openHandles = initState.openHandles ∧
      switchToUploadMode initState =
        { initState with uploadModeActive := true, startDisabled := false,
                         captureDisabled := true } ∧
      switchToCameraMode initState = { initState with uploadModeActive := false } := by
  have h := mode_switch_contract initState
  exact ⟨h.1, h.2.1, h.2.2.1, h.2.2.2.1, h.2.2.2.2.1 rfl, h.2.2.2.2.2⟩

/-- C10: whenever a 2xx response settles, the handler unconditionally
hides the camera preview, clears the stored capture frame, empties the
stream variable (stopping the held handle if any), re-enables start
and disables capture; and when the returned fragment holds no result
node the document is left unchanged, yet the reset still happens. -/
theorem success_response_resets_capture_state (s : AppState) (frag : List Node)
    (h : 0 < s.postsInFlight) :
    (submitResponse true frag s).previewVisible = false ∧
      (submitResponse true frag s).inputValue = "" ∧
      (submitResponse true frag s).stream = none ∧
      (submitResponse true frag s).startDisabled = false ∧
      (submitResponse true frag s).captureDisabled = true ∧
      (submitResponse true frag s).openHandles =
        (match s.stream with
         | none => s.openHandles
         | some h0 => s.openHandles.erase h0) ∧
      (querySelector isAnalysisResult frag = none →
        (submitResponse true frag s).docNodes = s.docNodes) := by
  have hne : ¬ s.postsInFlight = 0 := by omega
  cases hstream : s.stream with
  | none =>
      have hstep : submitResponse true frag s =
          { s with postsInFlight := s.postsInFlight - 1,
                   docNodes := patchAnalysisResult s.docNodes frag,
                   previewVisible := false, inputValue := "",
                   startDisabled := false, captureDisabled := true } := by
        simp [submitResponse, stopStream, hne, hstream]
      rw [hstep]
      refine ⟨rfl, rfl, hstream, rfl, rfl, rfl, ?_⟩
      intro hfrag
      show patchAnalysisResult s.docNodes frag = s.docNodes
      rw [patchAnalysisResult, hfrag]
  | some h0 =>
      have hstep : submitResponse true frag s =
          { s with postsInFlight := s.postsInFlight - 1,
                   docNodes := patchAnalysisResult s.docNodes frag,
                   previewVisible := false, inputValue := "",
                   stream := none,
                   openHandles := s.openHandles.erase h0,
                   startDisabled := false, captureDisabled := true } := by
        simp [submitResponse, stopStream, hne, hstream]
      rw [hstep]
      refine ⟨rfl, rfl, rfl, rfl, rfl, rfl, ?_⟩
      intro hfrag
      show patchAnalysisResult s.docNodes frag = s.docNodes
      rw [patchAnalysisResult, hfrag]

/-- Witness for C10: a running session with one POST in flight whose
response is 2xx but carries no result node; the document stays as it
was and the whole capture state is reset. -/
theorem success_response_resets_capture_state_witness :
    (submitResponse true [] resetWitnessState).previewVisible = false ∧
      (submitResponse true [] resetWitnessState).inputValue = "" ∧
      (submitResponse true [] resetWitnessState).stream = none ∧
      (submitResponse true [] resetWitnessState).startDisabled = false ∧
      (submitResponse true [] resetWitnessState).captureDisabled = true ∧
      (submitResponse true [] resetWitnessState).openHandles = [] ∧
      (submitResponse true [] resetWitnessState).docNodes = resetWitnessState.docNodes := by
  have h := success_response_resets_capture_state resetWitnessState [] (by decide)
  exact ⟨h.1, h.2.1, h.2.2.1, h.2.2.2.1, h.2.2.2.2.1, h.2.2.2.2.2.1,
    h.2.2.2.2.2.2 rfl⟩

end Mushguard
